import Mathlib

/-!
# Verification of the sonnixgres convenience layer

A shallow embedding of `sonnixgres.py`: credentials construction from the
environment, connection-scoped query/update/view operations, dynamic schema
provisioning (`create_table` / `populate_table`) over a transactional
database model, and the metadata cache.  External effects (the psycopg2
driver, the database engine, SQLAlchemy reflection) are modelled as explicit
parameters: each driver round trip is an `Except DriverErr _` outcome
supplied to the embedded function, and the statements/commits/rollbacks/
closes a function issues are recorded in an explicit action trace.
-/

namespace Sonnixgres

/-- A column name (a Python string). -/
abbrev ColName := String

/-- Driver-level (psycopg2 / database engine) errors, as far as the claims
need to distinguish them. `undefinedTable` is the engine's
"relation does not exist" error, `inFailedTransaction` the engine's refusal
to run statements in an aborted transaction, `invalidSyntax` a malformed
statement, `parameterMismatch` a bound-parameter arity error, and
`externalFault` any other environmental failure (network, disk, ...). -/
inductive DriverErr where
  | undefinedTable (table : String)
  | inFailedTransaction
  | invalidSyntax
  | parameterMismatch
  | externalFault
deriving DecidableEq, Repr

/-- The exception vocabulary visible to a caller of the library.
`connectionError` is the one exception class `sonnixgres.py` defines
(`cause = none` models `ConnectionError("No connection to database.")`,
`cause = some e` models `ConnectionError(error)` wrapping a driver error).
`driver e` is a raw psycopg2 exception propagating unchanged through a bare
`raise`.  The constructors `queryError` and `tableNotFoundError` are
modelled from the spec: the spec's §7 error taxonomy names `QueryError` and
`TableNotFoundError` wrapper kinds; no such classes exist in the source, and
no function translated from the source ever constructs these two. -/
inductive PyExc where
  | connectionError (cause : Option DriverErr)
  | driver (e : DriverErr)
  | queryError (e : DriverErr)
  | tableNotFoundError (e : DriverErr)
deriving DecidableEq, Repr

/-- Modelled from the spec: membership in the spec's `QueryError` kind
(`TableNotFoundError` is specified as a specialization of `QueryError`). -/
def PyExc.isQueryErrorKind : PyExc → Bool
  | .queryError _ => true
  | .tableNotFoundError _ => true
  | _ => false

/-- Modelled from the spec: membership in the spec's `TableNotFoundError`
kind. -/
def PyExc.isTableNotFoundKind : PyExc → Bool
  | .tableNotFoundError _ => true
  | _ => false

/-! ## Credentials (`PostgresCredentials.__init__`) -/

/-- The process environment: an association of variable names to values. -/
abbrev Env := List (String × String)

/-- Model of `os.getenv(key)`: the value of the first binding of `key`, if any. -/
def getenv (env : Env) (key : String) : Option String :=
  match env with
  | [] => none
  | (k, v) :: rest => if k = key then some v else getenv rest key

/-- Model of `os.getenv(key, default)` for a string default. -/
def getenvD (env : Env) (key : String) (dflt : String) : String :=
  (getenv env key).getD dflt

/-- Accumulator loop of `pySplit`: `acc` holds the current piece reversed. -/
def pySplitGo (sep : Char) (acc : List Char) : List Char → List String
  | [] => [String.mk acc.reverse]
  | c :: cs =>
    if c = sep then String.mk acc.reverse :: pySplitGo sep [] cs
    else pySplitGo sep (c :: acc) cs

/-- Model of Python `str.split(sep)` for a one-character separator: pieces
between separator occurrences, never dropping empty pieces; in particular
`"".split(",") == [""]`. -/
def pySplit (sep : Char) (s : String) : List String :=
  pySplitGo sep [] s.data

/-- The result of `PostgresCredentials.__init__`: unset variables stay
`none` (Python `None`); `port`, `schema` and the raw `tables` string are the
only defaulted fields. -/
structure Credentials where
  host : Option String
  database : Option String
  user : Option String
  password : Option String
  port : Int
  schema : String
  tables : List String
deriving DecidableEq, Repr

/-- Embeds `PostgresCredentials.__init__`, reading the given environment.
`int(os.getenv('DB_PORT', 5432))` raises a `ValueError` when `DB_PORT` is
set to a non-integer string, hence the `Except`; `String.toInt?` stands in
for Python `int()` on a trimmed string.  `DB_TABLES` is split on commas by
Python `str.split(',')`, modelled by `pySplit ','`. -/
def PostgresCredentials.ofEnv (env : Env) : Except String Credentials :=
  let portVal : Except String Int :=
    match getenv env "DB_PORT" with
    | none => .ok 5432
    | some s =>
      match s.trim.toInt? with
      | some p => .ok p
      | none => .error "invalid literal for int()"
  match portVal with
  | .error m => .error m
  | .ok p =>
    .ok { host := getenv env "DB_HOST"
          database := getenv env "DB_DATABASE"
          user := getenv env "DB_USER"
          password := getenv env "DB_PASSWORD"
          port := p
          schema := getenvD env "DB_SCHEMA" ""
          tables := pySplit ',' (getenvD env "DB_TABLES" "") }

/-! ## Connection-scoped operations
(`_get_connection`, `query_database`, `update_records`, `create_view`) -/

/-- A live psycopg2 session handle.  Its observable behaviour is carried by
the action trace, so the handle itself carries no data. -/
abbrev Conn := Unit

/-- The effects a connection-scoped operation performs on its connection, in
order: statement executions, `connection.commit()`, `connection.rollback()`
and `connection.close()`. -/
inductive Action where
  | executeStmt (sql : String)
  | commitConn
  | rollbackConn
  | closeConn
deriving DecidableEq, Repr

/-- A materialized query result (`pd.DataFrame` as produced by
`pd.read_sql`): ordered column names plus rows. -/
structure DataFrame where
  cols : List ColName
  rows : List (List String)
deriving DecidableEq, Repr

/-- Embeds `_get_connection(credentials)`.  `connectResult` is the outcome of
`psycopg2.connect(...)` and `setSearchPathResult` the outcome of executing
`SET search_path TO %s` (only consulted when `credentials.schema` is truthy,
i.e. non-empty).  Any failure is caught and re-raised as
`ConnectionError(error)`; note the source's `except` branch issues no
`close`, which the returned trace makes visible. -/
def _get_connection (credentials : Credentials)
    (connectResult : Except DriverErr Conn)
    (setSearchPathResult : Except DriverErr Unit) :
    Except PyExc Conn × List Action :=
  match connectResult with
  | .error e => (.error (.connectionError (some e)), [])
  | .ok conn =>
    if credentials.schema = "" then
      (.ok conn, [])
    else
      match setSearchPathResult with
      | .ok _ => (.ok conn, [Action.executeStmt "SET search_path TO %s"])
      | .error e =>
        (.error (.connectionError (some e)),
         [Action.executeStmt "SET search_path TO %s"])

/-- Embeds `query_database(connection, query, params, close_connection)`.
`execResult` is the outcome of `pd.read_sql(query, connection, ...)`.  A
falsy connection raises `ConnectionError` before anything else happens; a
driver failure propagates through the bare `raise`; the `finally` block
closes the connection exactly when `close_connection` is set. -/
def query_database (connection : Option Conn) (query : String)
    (execResult : Except DriverErr DataFrame) (close_connection : Bool) :
    Except PyExc DataFrame × List Action :=
  match connection with
  | none => (.error (.connectionError none), [])
  | some _ =>
    let finTrace := if close_connection then [Action.closeConn] else []
    match execResult with
    | .ok df => (.ok df, Action.executeStmt query :: finTrace)
    | .error e => (.error (.driver e), Action.executeStmt query :: finTrace)

/-- Embeds `update_records(connection, update_query, params, close_connection)`.
`execResult` is the outcome of `cursor.execute(update_query, params)`.
Success commits; failure rolls back and re-raises the driver error through
the bare `raise`; the `finally` block closes per `close_connection`. -/
def update_records (connection : Option Conn) (update_query : String)
    (execResult : Except DriverErr Unit) (close_connection : Bool) :
    Except PyExc Unit × List Action :=
  match connection with
  | none => (.error (.connectionError none), [])
  | some _ =>
    let finTrace := if close_connection then [Action.closeConn] else []
    match execResult with
    | .ok _ =>
      (.ok (), Action.executeStmt update_query :: Action.commitConn :: finTrace)
    | .error e =>
      (.error (.driver e),
       Action.executeStmt update_query :: Action.rollbackConn :: finTrace)

/-- Embeds `create_view(connection, view_name, view_query, close_connection)`.
Same commit/rollback/close discipline as `update_records`, over the
interpolated `CREATE OR REPLACE VIEW` statement. -/
def create_view (connection : Option Conn) (view_name : String)
    (view_query : String) (execResult : Except DriverErr Unit)
    (close_connection : Bool) : Except PyExc Unit × List Action :=
  match connection with
  | none => (.error (.connectionError none), [])
  | some _ =>
    let sql := "CREATE OR REPLACE VIEW " ++ view_name ++ " AS " ++ view_query
    let finTrace := if close_connection then [Action.closeConn] else []
    match execResult with
    | .ok _ => (.ok (), Action.executeStmt sql :: Action.commitConn :: finTrace)
    | .error e =>
      (.error (.driver e),
       Action.executeStmt sql :: Action.rollbackConn :: finTrace)

/-! ## Transactional database model (`create_table`, `populate_table`)

`populate_table` issues every `ALTER TABLE ... ADD COLUMN IF NOT EXISTS`
and the `executemany` insert on one psycopg2 connection whose autocommit is
off, so all of them run in a single transaction published only by the one
`connection.commit()` at the end.  The model therefore keeps a `committed`
database (what other sessions / later connections observe) and a `pending`
database (the transaction's working view), plus the engine's aborted-
transaction flag: after any statement failure the transaction refuses
further statements (`inFailedTransaction`) and a `commit` degenerates to a
rollback.  Statement-level environmental failures (connection loss, ...)
are injected through a fault oracle indexed by statement position. -/

/-- A physical table: its ordered column list and its rows.  A stored row
assigns each table column an optional value (`none` = SQL NULL). -/
structure PgTable where
  cols : List ColName
  rows : List (List (Option String))
deriving DecidableEq, Repr

/-- A database: tables by name. -/
abbrev DB := List (String × PgTable)

/-- Look a table up by name. -/
def dbLookup (db : DB) (t : String) : Option PgTable :=
  match db with
  | [] => none
  | (n, tbl) :: rest => if n = t then some tbl else dbLookup rest t

/-- Replace (or add) the table named `t`. -/
def dbSet (db : DB) (t : String) (tbl : PgTable) : DB :=
  match db with
  | [] => [(t, tbl)]
  | (n, tb) :: rest =>
    if n = t then (n, tbl) :: rest else (n, tb) :: dbSet rest t tbl

/-- The column list of table `t` (empty when `t` is absent). -/
def colsOf (db : DB) (t : String) : List ColName :=
  ((dbLookup db t).map PgTable.cols).getD []

/-- The engine's `ADD COLUMN IF NOT EXISTS`: append the column unless it is
already present. -/
def addColIfNotExists (tbl : PgTable) (c : ColName) : PgTable :=
  if c ∈ tbl.cols then tbl else { cols := tbl.cols ++ [c], rows := tbl.rows }

/-- Insert one row binding the dataset columns `cols` to the values `vals`;
table columns absent from the dataset get NULL.  (Existing rows keep their
stored values; a freshly added column reads as NULL for them because stored
rows are keyed by the table's column list at insert time — row padding is
immaterial to the claims and `none` is the default lookup.) -/
def insertRow (tbl : PgTable) (cols : List ColName) (vals : List String) :
    PgTable :=
  { cols := tbl.cols
    rows := tbl.rows ++ [tbl.cols.map (fun c => (cols.zip vals).lookup c)] }

/-- Transaction-level state of the session `populate_table` runs on. -/
structure TxDB where
  committed : DB
  pending : DB
  aborted : Bool
deriving DecidableEq, Repr

/-- Model of `connection.commit()`: publish the pending view, except that committing
an aborted transaction is a rollback (the engine already threw the work
away). -/
def TxDB.commitTx (s : TxDB) : TxDB :=
  if s.aborted then { committed := s.committed, pending := s.committed, aborted := false }
  else { committed := s.pending, pending := s.pending, aborted := false }

/-- Statements `populate_table` and `create_table` issue, as recorded in an
execution trace: the per-column `ALTER TABLE`, the per-row execution of the
parameterized `INSERT`, the `CREATE TABLE IF NOT EXISTS`, and the
transaction commit. -/
inductive TxAction where
  | alterAddColumn (t : String) (c : ColName)
  | insertInto (t : String) (cols : List ColName)
  | createTableStmt (t : String)
  | commitTx
deriving DecidableEq, Repr

/-- The `for col in dataframe.columns` loop of `populate_table`: one
`ALTER TABLE {t} ADD COLUMN IF NOT EXISTS {c} TEXT` per column, each its own
`cursor.execute`, none of them committed here.  `i` is the statement index
fed to the fault oracle.  On a failure the loop stops with the pending
changes made so far and the transaction aborted. -/
def runAddColumns (fault : Nat → Bool) (t : String) :
    Nat → TxDB → List ColName → Option PyExc × TxDB × List TxAction
  | _, s, [] => (none, s, [])
  | i, s, c :: cs =>
    if fault i then
      (some (.driver .externalFault),
       { committed := s.committed, pending := s.pending, aborted := true },
       [TxAction.alterAddColumn t c])
    else if s.aborted then
      (some (.driver .inFailedTransaction), s, [TxAction.alterAddColumn t c])
    else
      match dbLookup s.pending t with
      | none =>
        (some (.driver (.undefinedTable t)),
         { committed := s.committed, pending := s.pending, aborted := true },
         [TxAction.alterAddColumn t c])
      | some tbl =>
        let s' : TxDB :=
          { committed := s.committed
            pending := dbSet s.pending t (addColIfNotExists tbl c)
            aborted := false }
        let r := runAddColumns fault t (i + 1) s' cs
        (r.1, r.2.1, TxAction.alterAddColumn t c :: r.2.2)

/-- Model of `cursor.executemany(insert_query, dataframe.values.tolist())`: the
parameterized `INSERT INTO {t} (cols...) VALUES (%s...)` executed once per
row.  An empty dataset column list makes the interpolated statement
malformed (`INSERT INTO t () VALUES ()`); a row whose arity differs from the
placeholder count is a parameter-binding error; with zero rows `executemany`
executes nothing at all. -/
def runInsertRows (fault : Nat → Bool) (t : String) (cols : List ColName) :
    Nat → TxDB → List (List String) → Option PyExc × TxDB × List TxAction
  | _, s, [] => (none, s, [])
  | i, s, v :: vs =>
    if fault i then
      (some (.driver .externalFault),
       { committed := s.committed, pending := s.pending, aborted := true },
       [TxAction.insertInto t cols])
    else if s.aborted then
      (some (.driver .inFailedTransaction), s, [TxAction.insertInto t cols])
    else if cols.isEmpty then
      (some (.driver .invalidSyntax),
       { committed := s.committed, pending := s.pending, aborted := true },
       [TxAction.insertInto t cols])
    else
      match dbLookup s.pending t with
      | none =>
        (some (.driver (.undefinedTable t)),
         { committed := s.committed, pending := s.pending, aborted := true },
         [TxAction.insertInto t cols])
      | some tbl =>
        if v.length ≠ cols.length then
          (some (.driver .parameterMismatch),
           { committed := s.committed, pending := s.pending, aborted := true },
           [TxAction.insertInto t cols])
        else
          let s' : TxDB :=
            { committed := s.committed
              pending := dbSet s.pending t (insertRow tbl cols v)
              aborted := false }
          let r := runInsertRows fault t cols (i + 1) s' vs
          (r.1, r.2.1, TxAction.insertInto t cols :: r.2.2)

/-- Embeds `populate_table(connection, table_name, dataframe)`: the per-column
`ALTER TABLE` loop, then the `executemany` insert, then the single
`connection.commit()`.  `dfCols`/`dfRows` are `dataframe.columns` and
`dataframe.values.tolist()`.  On any statement failure the exception
propagates through the bare `raise` of the `except` branch — no commit and
no rollback are issued. -/
def populate_table (fault : Nat → Bool) (s : TxDB) (table_name : String)
    (dfCols : List ColName) (dfRows : List (List String)) :
    Option PyExc × TxDB × List TxAction :=
  match runAddColumns fault table_name 0 s dfCols with
  | (some e, s', tr) => (some e, s', tr)
  | (none, s', tr) =>
    match runInsertRows fault table_name dfCols dfCols.length s' dfRows with
    | (some e, s'', tr2) => (some e, s'', tr ++ tr2)
    | (none, s'', tr2) =>
      (none, s''.commitTx, tr ++ tr2 ++ [TxAction.commitTx])

/-- Embeds `create_table(connection, table_name)`: one
`CREATE TABLE IF NOT EXISTS {t} ();` statement followed by its own
`connection.commit()`. -/
def create_table (fault : Nat → Bool) (s : TxDB) (table_name : String) :
    Option PyExc × TxDB × List TxAction :=
  if fault 0 then
    (some (.driver .externalFault),
     { committed := s.committed, pending := s.pending, aborted := true },
     [TxAction.createTableStmt table_name])
  else if s.aborted then
    (some (.driver .inFailedTransaction), s, [TxAction.createTableStmt table_name])
  else
    let pending' :=
      match dbLookup s.pending table_name with
      | some _ => s.pending
      | none => dbSet s.pending table_name { cols := [], rows := [] }
    ((none : Option PyExc),
     TxDB.commitTx { committed := s.committed, pending := pending', aborted := false },
     [TxAction.createTableStmt table_name, TxAction.commitTx])

/-! ## Metadata cache (`MetadataCache`) -/

/-- A reflected metadata snapshot (`sqlalchemy.MetaData` after the
reflection loop): the reflected tables in reflection order. -/
structure ReflectedMeta where
  tables : List (String × PgTable)
deriving DecidableEq, Repr

/-- The `MetadataCache` object: configured schema and table list, and the
current snapshot (`None` until a refresh succeeds).  The engine and the
mutual-exclusion lock are not data; the lock only serializes refreshes and
the claims here are per-call. -/
structure MetadataCache where
  schema : String
  tables : List String
  metadata_cache : Option ReflectedMeta
deriving DecidableEq, Repr

/-- The `for table in self.tables: metadata.reflect(...)` loop, accumulating
into one fresh `MetaData` object; `reflect` is the SQLAlchemy reflection of
a single table, an external round trip that may fail. -/
def reflectLoop (reflect : String → Except DriverErr PgTable)
    (acc : ReflectedMeta) : List String → Except DriverErr ReflectedMeta
  | [] => .ok acc
  | t :: ts =>
    match reflect t with
    | .error e => .error e
    | .ok tbl => reflectLoop reflect { tables := acc.tables ++ [(t, tbl)] } ts

/-- Embeds `MetadataCache.refresh_metadata_cache`: reflect every configured table
into a fresh snapshot and install it; any exception is caught and logged,
leaving the object untouched.  The function is total — nothing is raised to
the caller. -/
def refresh_metadata_cache (reflect : String → Except DriverErr PgTable)
    (mc : MetadataCache) : MetadataCache :=
  match reflectLoop reflect { tables := [] } mc.tables with
  | .ok md =>
    { schema := mc.schema, tables := mc.tables, metadata_cache := some md }
  | .error _ => mc

/-! ## Column rendering (`MetadataCache.format_column_details`) -/

/-- A reflected column as `format_column_details` consumes it:
`typeName` is Python `str(column.type)`. -/
structure Column where
  name : String
  typeName : String
  primary_key : Bool
deriving DecidableEq, Repr

/-- The `sql_type_mapping` dict literal. -/
def sql_type_mapping : List (String × String) :=
  [("INTEGER", "INT"),
   ("BIGINT", "BIGINT"),
   ("TEXT", "VARCHAR(255)"),
   ("BOOLEAN", "BOOLEAN"),
   ("DATE", "DATE"),
   ("FLOAT", "FLOAT"),
   ("DOUBLE", "DOUBLE PRECISION"),
   ("SERIAL", "SERIAL")]

/-- Model of Python `dict.get(key, default)` over the assoc-list rendering
of the dict literal. -/
def dictGet (m : List (String × String)) (key : String) (dflt : String) :
    String :=
  match m with
  | [] => dflt
  | (k, v) :: rest => if k = key then v else dictGet rest key dflt

/-- Embeds `MetadataCache.format_column_details(column)`:
`sql_type_mapping.get(str(column.type), 'VARCHAR(255)')`, rendered as the
column name, a space and the SQL type, with a `" PRIMARY KEY"` suffix for
primary keys. -/
def format_column_details (column : Column) : String :=
  let sql_type := dictGet sql_type_mapping column.typeName "VARCHAR(255)"
  let details := column.name ++ " " ++ sql_type
  if column.primary_key then details ++ " PRIMARY KEY" else details

/-! ## Supporting lemmas -/

theorem dbLookup_dbSet (db : DB) (t : String) (tbl : PgTable) :
    dbLookup (dbSet db t tbl) t = some tbl := by
  induction db with
  | nil => simp [dbSet, dbLookup]
  | cons hd rest ih =>
    obtain ⟨n, tb⟩ := hd
    by_cases h : n = t
    · simp [dbSet, dbLookup, h]
    · simp [dbSet, dbLookup, h, ih]

theorem addColIfNotExists_cols (tbl : PgTable) (c : ColName) :
    (addColIfNotExists tbl c).cols
      = tbl.cols ++ (if c ∈ tbl.cols then [] else [c]) := by
  by_cases h : c ∈ tbl.cols <;> simp [addColIfNotExists, h]

theorem mem_addColIfNotExists (x : ColName) (tbl : PgTable) (c : ColName) :
    x ∈ (addColIfNotExists tbl c).cols ↔ x ∈ tbl.cols ∨ x = c := by
  by_cases h : c ∈ tbl.cols
  · simp only [addColIfNotExists, h, if_true]
    constructor
    · exact Or.inl
    · rintro (hx | rfl)
      · exact hx
      · exact h
  · simp [addColIfNotExists, h]

theorem insertRow_cols (tbl : PgTable) (cols : List ColName)
    (vals : List String) : (insertRow tbl cols vals).cols = tbl.cols := rfl

/-- The `ALTER TABLE` loop never touches the committed database. -/
theorem runAddColumns_committed (fault : Nat → Bool) (t : String) :
    ∀ (cs : List ColName) (i : Nat) (s : TxDB),
      ((runAddColumns fault t i s cs).2.1).committed = s.committed := by
  intro cs
  induction cs with
  | nil => intro i s; rfl
  | cons c cs ih =>
    intro i s
    simp only [runAddColumns]
    by_cases hf : fault i
    · simp [hf]
    · by_cases hab : s.aborted
      · simp [hf, hab]
      · cases hlk : dbLookup s.pending t with
        | none => simp [hf, hab, hlk]
        | some tbl => simp [hf, hab, hlk, ih]

/-- The `ALTER TABLE` loop never emits a transaction commit. -/
theorem runAddColumns_no_commit (fault : Nat → Bool) (t : String) :
    ∀ (cs : List ColName) (i : Nat) (s : TxDB),
      TxAction.commitTx ∉ (runAddColumns fault t i s cs).2.2 := by
  intro cs
  induction cs with
  | nil => intro i s; simp [runAddColumns]
  | cons c cs ih =>
    intro i s
    simp only [runAddColumns]
    by_cases hf : fault i
    · simp [hf]
    · by_cases hab : s.aborted
      · simp [hf, hab]
      · cases hlk : dbLookup s.pending t with
        | none => simp [hf, hab, hlk]
        | some tbl => simp [hf, hab, hlk, ih]

/-- A successful `ALTER TABLE` loop keeps the aborted flag, only appends to
the table's column list, and realizes exactly the union of the old columns
with the requested ones. -/
theorem runAddColumns_ok (fault : Nat → Bool) (t : String) :
    ∀ (cs : List ColName) (i : Nat) (s s' : TxDB) (tr : List TxAction),
      runAddColumns fault t i s cs = (none, s', tr) →
      s'.aborted = s.aborted
      ∧ (∃ rest, colsOf s'.pending t = colsOf s.pending t ++ rest)
      ∧ (∀ x, x ∈ colsOf s'.pending t ↔ x ∈ colsOf s.pending t ∨ x ∈ cs) := by
  intro cs
  induction cs with
  | nil =>
    intro i s s' tr h
    simp only [runAddColumns, Prod.mk.injEq] at h
    obtain ⟨-, rfl, rfl⟩ := h
    exact ⟨rfl, ⟨[], by simp⟩, by simp⟩
  | cons c cs ih =>
    intro i s s' tr h
    simp only [runAddColumns] at h
    by_cases hf : fault i
    · simp [hf] at h
    · by_cases hab : s.aborted
      · simp [hf, hab] at h
      · cases hlk : dbLookup s.pending t with
        | none => simp [hf, hab, hlk] at h
        | some tbl =>
          simp only [hf, hab, hlk, if_false, Bool.false_eq_true] at h
          revert h
          cases hrec : runAddColumns fault t (i + 1)
              { committed := s.committed
                pending := dbSet s.pending t (addColIfNotExists tbl c)
                aborted := false } cs with
          | mk e p =>
            obtain ⟨s2, tr2⟩ := p
            intro h
            injection h with h1 h2
            injection h2 with h2 h3
            subst h1; subst h2; subst h3
            obtain ⟨ha', hrest, hmem⟩ := ih (i + 1) _ _ _ hrec
            have hcolsNew :
                colsOf (dbSet s.pending t (addColIfNotExists tbl c)) t
                  = (addColIfNotExists tbl c).cols := by
              simp [colsOf, dbLookup_dbSet]
            have hcolsOld : colsOf s.pending t = tbl.cols := by
              simp [colsOf, hlk]
            refine ⟨by simpa [hab] using ha', ?_, ?_⟩
            · obtain ⟨rest, hr⟩ := hrest
              refine ⟨(if c ∈ tbl.cols then [] else [c]) ++ rest, ?_⟩
              rw [hr, hcolsNew, addColIfNotExists_cols, hcolsOld,
                List.append_assoc]
            · intro x
              rw [hmem x, hcolsNew, mem_addColIfNotExists, hcolsOld]
              constructor
              · rintro ((hx | rfl) | hx)
                · exact Or.inl hx
                · exact Or.inr (List.mem_cons_self _ _)
                · exact Or.inr (List.mem_cons_of_mem _ hx)
              · rintro (hx | hx)
                · exact Or.inl (Or.inl hx)
                · rcases List.mem_cons.mp hx with rfl | hx
                  · exact Or.inl (Or.inr rfl)
                  · exact Or.inr hx

/-- The `executemany` insert loop never touches the committed database. -/
theorem runInsertRows_committed (fault : Nat → Bool) (t : String)
    (cols : List ColName) :
    ∀ (vs : List (List String)) (i : Nat) (s : TxDB),
      ((runInsertRows fault t cols i s vs).2.1).committed = s.committed := by
  intro vs
  induction vs with
  | nil => intro i s; rfl
  | cons v vs ih =>
    intro i s
    simp only [runInsertRows]
    by_cases hf : fault i
    · simp [hf]
    · by_cases hab : s.aborted
      · simp [hf, hab]
      · by_cases hemp : cols.isEmpty
        · simp [hf, hab, hemp]
        · cases hlk : dbLookup s.pending t with
          | none => simp [hf, hab, hemp, hlk]
          | some tbl =>
            by_cases hlen : v.length = cols.length
            · simp [hf, hab, hemp, hlk, hlen, ih]
            · simp [hf, hab, hemp, hlk, hlen]

/-- The `executemany` insert loop never emits a transaction commit. -/
theorem runInsertRows_no_commit (fault : Nat → Bool) (t : String)
    (cols : List ColName) :
    ∀ (vs : List (List String)) (i : Nat) (s : TxDB),
      TxAction.commitTx ∉ (runInsertRows fault t cols i s vs).2.2 := by
  intro vs
  induction vs with
  | nil => intro i s; simp [runInsertRows]
  | cons v vs ih =>
    intro i s
    simp only [runInsertRows]
    by_cases hf : fault i
    · simp [hf]
    · by_cases hab : s.aborted
      · simp [hf, hab]
      · by_cases hemp : cols.isEmpty
        · simp [hf, hab, hemp]
        · cases hlk : dbLookup s.pending t with
          | none => simp [hf, hab, hemp, hlk]
          | some tbl =>
            by_cases hlen : v.length = cols.length
            · simp [hf, hab, hemp, hlk, hlen, ih]
            · simp [hf, hab, hemp, hlk, hlen]

/-- A successful `executemany` keeps the aborted flag and the column list of
every table. -/
theorem runInsertRows_ok (fault : Nat → Bool) (t : String)
    (cols : List ColName) :
    ∀ (vs : List (List String)) (i : Nat) (s s' : TxDB)
      (tr : List TxAction),
      runInsertRows fault t cols i s vs = (none, s', tr) →
      s'.aborted = s.aborted ∧ colsOf s'.pending t = colsOf s.pending t := by
  intro vs
  induction vs with
  | nil =>
    intro i s s' tr h
    simp only [runInsertRows, Prod.mk.injEq] at h
    obtain ⟨-, rfl, rfl⟩ := h
    exact ⟨rfl, rfl⟩
  | cons v vs ih =>
    intro i s s' tr h
    simp only [runInsertRows] at h
    by_cases hf : fault i
    · simp [hf] at h
    · by_cases hab : s.aborted
      · simp [hf, hab] at h
      · by_cases hemp : cols.isEmpty
        · simp [hf, hab, hemp] at h
        · cases hlk : dbLookup s.pending t with
          | none => simp [hf, hab, hemp, hlk] at h
          | some tbl =>
            by_cases hlen : v.length = cols.length
            · simp only [hf, hab, hemp, hlk, hlen, if_false, if_true,
                Bool.false_eq_true, ne_eq, not_true_eq_false,
                not_false_eq_true] at h
              revert h
              cases hrec : runInsertRows fault t cols (i + 1)
                  { committed := s.committed
                    pending := dbSet s.pending t (insertRow tbl cols v)
                    aborted := false } vs with
              | mk e p =>
                obtain ⟨s2, tr2⟩ := p
                intro h
                injection h with h1 h2
                injection h2 with h2 h3
                subst h1; subst h2; subst h3
                obtain ⟨ha', hcols⟩ := ih (i + 1) _ _ _ hrec
                refine ⟨by simpa [hab] using ha', ?_⟩
                rw [hcols]
                simp [colsOf, dbLookup_dbSet, insertRow_cols, hlk]
            · simp [hf, hab, hemp, hlk, hlen] at h

/-- A successful `populate_table` call ends with the pending view published
(so committed = pending), the transaction healthy, and the table's committed
column list grown — by appending only — to exactly the union of the old
columns with the dataset's columns. -/
theorem populate_table_ok (fault : Nat → Bool) (s s' : TxDB) (t : String)
    (dfCols : List ColName) (dfRows : List (List String))
    (tr : List TxAction) (ha : s.aborted = false)
    (h : populate_table fault s t dfCols dfRows = (none, s', tr)) :
    s'.committed = s'.pending ∧ s'.aborted = false
    ∧ (∃ rest, colsOf s'.committed t = colsOf s.pending t ++ rest)
    ∧ (∀ x, x ∈ colsOf s'.committed t ↔ x ∈ colsOf s.pending t ∨ x ∈ dfCols)
    := by
  unfold populate_table at h
  cases hadd : runAddColumns fault t 0 s dfCols with
  | mk e1 p1 =>
    obtain ⟨s1, tr1⟩ := p1
    rw [hadd] at h
    cases e1 with
    | some e => simp at h
    | none =>
      dsimp only at h
      cases hins : runInsertRows fault t dfCols dfCols.length s1 dfRows with
      | mk e2 p2 =>
        obtain ⟨s2, tr2⟩ := p2
        rw [hins] at h
        cases e2 with
        | some e => simp at h
        | none =>
          simp only [Prod.mk.injEq] at h
          obtain ⟨-, rfl, rfl⟩ := h
          obtain ⟨ha1, hrest1, hmem1⟩ := runAddColumns_ok fault t dfCols 0 s s1 tr1 hadd
          obtain ⟨ha2, hcols2⟩ :=
            runInsertRows_ok fault t dfCols dfRows dfCols.length s1 s2 tr2 hins
          have hab2 : s2.aborted = false := by rw [ha2, ha1, ha]
          have hct : s2.commitTx
              = { committed := s2.pending, pending := s2.pending, aborted := false } := by
            simp [TxDB.commitTx, hab2]
          refine ⟨by rw [hct], by rw [hct], ?_, ?_⟩
          · obtain ⟨rest, hr⟩ := hrest1
            exact ⟨rest, by rw [hct]; simpa [hcols2] using hr⟩
          · intro x
            rw [hct]
            simpa [hcols2] using hmem1 x

/-- A failed `populate_table` call leaves the committed database exactly as
it was and never issues a transaction commit: the single
`connection.commit()` sits after the insert, so nothing from the call — in
particular no column addition — is committed. -/
theorem populate_table_err (fault : Nat → Bool) (s s' : TxDB) (t : String)
    (dfCols : List ColName) (dfRows : List (List String)) (e : PyExc)
    (tr : List TxAction)
    (h : populate_table fault s t dfCols dfRows = (some e, s', tr)) :
    s'.committed = s.committed ∧ TxAction.commitTx ∉ tr := by
  unfold populate_table at h
  cases hadd : runAddColumns fault t 0 s dfCols with
  | mk e1 p1 =>
    obtain ⟨s1, tr1⟩ := p1
    rw [hadd] at h
    cases e1 with
    | some e1' =>
      simp only [Prod.mk.injEq] at h
      obtain ⟨-, rfl, rfl⟩ := h
      constructor
      · have := runAddColumns_committed fault t dfCols 0 s
        rwa [hadd] at this
      · have := runAddColumns_no_commit fault t dfCols 0 s
        rwa [hadd] at this
    | none =>
      dsimp only at h
      cases hins : runInsertRows fault t dfCols dfCols.length s1 dfRows with
      | mk e2 p2 =>
        obtain ⟨s2, tr2⟩ := p2
        rw [hins] at h
        cases e2 with
        | some e2' =>
          simp only [Prod.mk.injEq] at h
          obtain ⟨-, rfl, rfl⟩ := h
          have hc1 : s1.committed = s.committed := by
            have := runAddColumns_committed fault t dfCols 0 s
            rwa [hadd] at this
          have hc2 : s2.committed = s1.committed := by
            have := runInsertRows_committed fault t dfCols dfRows dfCols.length s1
            rwa [hins] at this
          refine ⟨by rw [hc2, hc1], ?_⟩
          intro hmem
          rcases List.mem_append.mp hmem with hmem | hmem
          · have := runAddColumns_no_commit fault t dfCols 0 s
            rw [hadd] at this
            exact this hmem
          · have := runInsertRows_no_commit fault t dfCols dfRows dfCols.length s1
            rw [hins] at this
            exact this hmem
        | none => simp at h

/-! ## Claim theorems -/

/-- C1: for every table and every pair of datasets D1 then D2 successfully
populated into that table via `populate_table`, the table's final committed
column set equals the union of the pre-existing column set with D1's and
D2's column names — every dataset column exists afterwards, pre-existing
columns survive in place (new ones are only appended after them), and no
column is ever removed. -/
theorem populate_twice_column_union
    (fault1 fault2 : Nat → Bool) (s s1 s2 : TxDB) (t : String)
    (d1cols d2cols : List ColName) (d1rows d2rows : List (List String))
    (tr1 tr2 : List TxAction)
    (hq : s.pending = s.committed) (ha : s.aborted = false)
    (h1 : populate_table fault1 s t d1cols d1rows = (none, s1, tr1))
    (h2 : populate_table fault2 s1 t d2cols d2rows = (none, s2, tr2)) :
    (∀ x, x ∈ colsOf s2.committed t ↔
        x ∈ colsOf s.committed t ∨ x ∈ d1cols ∨ x ∈ d2cols)
    ∧ (∃ rest, colsOf s2.committed t = colsOf s.committed t ++ rest) := by
  obtain ⟨hc1, ha1, hrest1, hmem1⟩ :=
    populate_table_ok fault1 s s1 t d1cols d1rows tr1 ha h1
  obtain ⟨hc2, ha2, hrest2, hmem2⟩ :=
    populate_table_ok fault2 s1 s2 t d2cols d2rows tr2 ha1 h2
  have hpend1 : colsOf s1.pending t = colsOf s1.committed t := by rw [hc1]
  have hpend0 : colsOf s.pending t = colsOf s.committed t := by rw [hq]
  constructor
  · intro x
    rw [hmem2 x, hpend1, hmem1 x, hpend0, or_assoc]
  · obtain ⟨r1, h1'⟩ := hrest1
    obtain ⟨r2, h2'⟩ := hrest2
    exact ⟨r1 ++ r2, by
      rw [h2', hpend1, h1', hpend0, List.append_assoc]⟩

/-- Concrete starting state for the C1 witness: table `t1` already exists
with the single column `a`, nothing pending, transaction healthy. -/
def c1S : TxDB :=
  { committed := [("t1", { cols := ["a"], rows := [] })]
    pending := [("t1", { cols := ["a"], rows := [] })]
    aborted := false }

/-- First concrete populate of the C1 witness: dataset `[a, b]`. -/
def c1P1 := populate_table (fun _ => false) c1S "t1" ["a", "b"] [["x", "y"]]

/-- Second concrete populate of the C1 witness: dataset `[b, c]`. -/
def c1P2 :=
  populate_table (fun _ => false) c1P1.2.1 "t1" ["b", "c"] [["y2", "z"]]

/-- Witness for C1: the end-to-end scenario of the spec — populate `[a, b]`
then `[b, c]` into `t1` — at concrete inputs. -/
theorem populate_twice_column_union_witness :
    (∀ x, x ∈ colsOf c1P2.2.1.committed "t1" ↔
        x ∈ colsOf c1S.committed "t1" ∨ x ∈ ["a", "b"] ∨ x ∈ ["b", "c"])
    ∧ (∃ rest,
        colsOf c1P2.2.1.committed "t1" = colsOf c1S.committed "t1" ++ rest) :=
  populate_twice_column_union (fun _ => false) (fun _ => false)
    c1S c1P1.2.1 c1P2.2.1 "t1" ["a", "b"] ["b", "c"]
    [["x", "y"]] [["y2", "z"]] c1P1.2.2 c1P2.2.2 rfl rfl rfl rfl

/-- C2 counterexample: a failing read query surfaces to the caller as the
raw driver exception itself — not as any `QueryError` wrapper kind — and
populating a never-created table surfaces the driver's undefined-table
error, not a distinguishable `TableNotFoundError` kind.  (The library
defines no such classes; its only class is `ConnectionError`.) -/
theorem raw_reraise_counterexample :
    (query_database (some ()) "SELECT 1" (.error .externalFault) true).1
      = .error (.driver .externalFault)
    ∧ PyExc.isQueryErrorKind (.driver .externalFault) = false
    ∧ (populate_table (fun _ => false)
        { committed := [], pending := [], aborted := false }
        "t_missing" ["c1"] [["v"]]).1
      = some (.driver (.undefinedTable "t_missing"))
    ∧ PyExc.isQueryErrorKind (.driver (.undefinedTable "t_missing")) = false
    ∧ PyExc.isTableNotFoundKind (.driver (.undefinedTable "t_missing"))
      = false :=
  ⟨rfl, rfl, rfl, rfl, rfl⟩

/-- C2 (amended): every failure during query, update, view creation, or DDL
execution is re-raised to the caller as the raw underlying driver exception
(a bare `raise`; the code defines no `QueryError` or `TableNotFoundError`
classes), and `populate_table` on a table that was never created fails with
the driver's own undefined-table error — callers must match on the raw
driver exception. -/
theorem errors_reraised_raw (c : Conn) (q vn vq : String) (e : DriverErr)
    (b1 b2 b3 : Bool) (f : Nat → Bool) (s : TxDB) (t : String)
    (c0 : ColName) (cols : List ColName) (dfRows : List (List String))
    (hf : f 0 = false) (ha : s.aborted = false)
    (hmiss : dbLookup s.pending t = none) :
    (query_database (some c) q (.error e) b1).1 = .error (.driver e)
    ∧ (update_records (some c) q (.error e) b2).1 = .error (.driver e)
    ∧ (create_view (some c) vn vq (.error e) b3).1 = .error (.driver e)
    ∧ (populate_table f s t (c0 :: cols) dfRows).1
        = some (.driver (.undefinedTable t)) := by
  refine ⟨rfl, rfl, rfl, ?_⟩
  have hrun : runAddColumns f t 0 s (c0 :: cols)
      = (some (.driver (.undefinedTable t)),
         { committed := s.committed, pending := s.pending, aborted := true },
         [TxAction.alterAddColumn t c0]) := by
    simp [runAddColumns, hf, ha, hmiss]
  simp [populate_table, hrun]

/-- Witness for C2 (amended) at concrete inputs: a failing `SELECT`, a
failing update, a failing view creation, and a populate of column `c1` into
the absent table `missing`. -/
theorem errors_reraised_raw_witness :
    (query_database (some ()) "SELECT 1" (.error .externalFault) true).1
      = .error (.driver .externalFault)
    ∧ (update_records (some ()) "UPDATE t SET a = %s"
        (.error .externalFault) true).1 = .error (.driver .externalFault)
    ∧ (create_view (some ()) "v" "SELECT 1" (.error .externalFault) true).1
      = .error (.driver .externalFault)
    ∧ (populate_table (fun _ => false)
        { committed := [], pending := [], aborted := false }
        "missing" ["c1"] []).1
      = some (.driver (.undefinedTable "missing")) :=
  errors_reraised_raw () "SELECT 1" "v" "SELECT 1" .externalFault
    true true true (fun _ => false)
    { committed := [], pending := [], aborted := false }
    "missing" "c1" [] [] rfl rfl rfl

/-- Concrete starting state for C3: table `t1` exists, committed, with no
columns. -/
def c3S : TxDB :=
  { committed := [("t1", { cols := [], rows := [] })]
    pending := [("t1", { cols := [], rows := [] })]
    aborted := false }

/-- Concrete C3 run: populate columns `[c1, c2]` where the driver fails on
the second `ALTER TABLE` statement (statement index 1). -/
def c3R :=
  populate_table (fun i => i == 1) c3S "t1" ["c1", "c2"] [["a", "b"]]

/-- C3 counterexample: the driver fails on the second of two `ADD COLUMN`
statements; `c1`'s `ALTER TABLE` was issued and succeeded before the
failure (it is visible in the transaction's pending view), yet the committed
table still has no column `c1` and the trace contains no commit — refuting
"each conditional ADD COLUMN is issued as its own separately committed
statement, so the columns added before the failure remain committed". -/
theorem populate_partial_failure_uncommitted :
    c3R.1 = some (.driver .externalFault)
    ∧ TxAction.alterAddColumn "t1" "c1" ∈ c3R.2.2
    ∧ TxAction.alterAddColumn "t1" "c2" ∈ c3R.2.2
    ∧ colsOf c3R.2.1.pending "t1" = ["c1"]
    ∧ colsOf c3R.2.1.committed "t1" = []
    ∧ TxAction.commitTx ∉ c3R.2.2 := by
  refine ⟨rfl, ?_, ?_, rfl, rfl, ?_⟩ <;> decide

/-- C3 (amended): in `populate_table`, each conditional `ADD COLUMN` is
issued as its own statement, but all additions and the row insert share one
transaction whose only commit comes after the insert; if the operation
fails partway through a multi-column addition, none of the columns added by
that call are committed — the committed database is exactly what it was,
and the call's statement trace contains no commit. -/
theorem populate_table_failure_commits_nothing
    (fault : Nat → Bool) (s s' : TxDB) (t : String)
    (dfCols : List ColName) (dfRows : List (List String)) (e : PyExc)
    (tr : List TxAction)
    (h : populate_table fault s t dfCols dfRows = (some e, s', tr)) :
    s'.committed = s.committed ∧ TxAction.commitTx ∉ tr :=
  populate_table_err fault s s' t dfCols dfRows e tr h

/-- Witness for C3 (amended) at the concrete failing run `c3R`. -/
theorem populate_table_failure_commits_nothing_witness :
    c3R.2.1.committed = c3S.committed ∧ TxAction.commitTx ∉ c3R.2.2 :=
  populate_table_failure_commits_nothing (fun i => i == 1) c3S c3R.2.1
    "t1" ["c1", "c2"] [["a", "b"]] (.driver .externalFault) c3R.2.2 rfl

/-- C4: for every state of the `MetadataCache`, if
`refresh_metadata_cache` encounters a reflection failure the previously
cached snapshot (if any) is retained completely unchanged (the whole object
is returned as it was, and the function is total, so nothing is raised);
the cache is only ever replaced, in its entirety, by the result of a fully
successful reflection of the configured tables. -/
theorem refresh_metadata_cache_best_effort
    (reflect : String → Except DriverErr PgTable) (mc : MetadataCache) :
    (∀ e, reflectLoop reflect { tables := [] } mc.tables = .error e →
        refresh_metadata_cache reflect mc = mc)
    ∧ (∀ md, reflectLoop reflect { tables := [] } mc.tables = .ok md →
        refresh_metadata_cache reflect mc
          = { schema := mc.schema, tables := mc.tables,
              metadata_cache := some md }) := by
  constructor
  · intro e he
    simp [refresh_metadata_cache, he]
  · intro md hmd
    simp [refresh_metadata_cache, hmd]

/-- Concrete populated cache for the C4 witness. -/
def c4MC : MetadataCache :=
  { schema := "public", tables := ["t1"]
    metadata_cache := some { tables := [("old", { cols := ["x"], rows := [] })] } }

/-- Witness for C4: a refresh whose reflection fails on `t1` returns the
cache object unchanged, old snapshot included. -/
theorem refresh_metadata_cache_best_effort_witness :
    refresh_metadata_cache (fun _ => .error .externalFault) c4MC = c4MC :=
  (refresh_metadata_cache_best_effort
      (fun _ => .error .externalFault) c4MC).1 .externalFault rfl

/-- Concrete credentials for C5: a non-empty schema so that the
search-path directive is attempted. -/
def c5Creds : Credentials :=
  { host := none, database := none, user := none, password := none
    port := 5432, schema := "analytics", tables := [""] }

/-- C5: evaluation at the failing input.  When `psycopg2.connect` succeeds
and the subsequent `SET search_path TO %s` fails, `_get_connection` raises
`ConnectionError` wrapping the driver error but the just-opened session is
NOT closed — the call's action trace contains no close.  This contradicts
the claim (and the spec's release-on-every-exit-path discipline): the code
has no `close` on this error path. -/
theorem get_connection_search_path_failure_leaves_open :
    _get_connection c5Creds (.ok ()) (.error .externalFault)
      = (.error (.connectionError (some .externalFault)),
         [Action.executeStmt "SET search_path TO %s"])
    ∧ Action.closeConn
        ∉ (_get_connection c5Creds (.ok ()) (.error .externalFault)).2 :=
  ⟨rfl, by decide⟩

/-- C6 counterexample: with `DB_TABLES` absent (empty environment), the
constructed credentials carry `tables = [""]` — a one-element list holding
the empty string, because Python turns `''.split(',')` into `['']` — which
is not an empty collection of table names. -/
theorem credentials_default_tables_counterexample :
    PostgresCredentials.ofEnv []
      = .ok { host := none, database := none, user := none, password := none,
              port := 5432, schema := "", tables := [""] }
    ∧ ([""] : List String) ≠ [] :=
  ⟨rfl, by decide⟩

/-- C6 (amended): construction applies no defaulting to host, database,
user or password (absent entries stay `None`); `port` defaults to 5432 and
`schema` to `""`; the table-list entry also defaults — to the empty string,
which `split(',')` turns into the one-element list `[""]`, so an absent
`DB_TABLES` yields `[""]`, not an empty list. -/
theorem credentials_defaulting (env : Env)
    (hp : getenv env "DB_PORT" = none)
    (hs : getenv env "DB_SCHEMA" = none)
    (ht : getenv env "DB_TABLES" = none) :
    PostgresCredentials.ofEnv env
      = .ok { host := getenv env "DB_HOST"
              database := getenv env "DB_DATABASE"
              user := getenv env "DB_USER"
              password := getenv env "DB_PASSWORD"
              port := 5432, schema := "", tables := [""] } := by
  simp only [PostgresCredentials.ofEnv, getenvD, hp, hs, ht, Option.getD]
  rfl

/-- Witness for C6 (amended) at a concrete environment holding only
`DB_HOST`. -/
theorem credentials_defaulting_witness :
    PostgresCredentials.ofEnv [("DB_HOST", "h")]
      = .ok { host := some "h", database := none, user := none,
              password := none, port := 5432, schema := "",
              tables := [""] } :=
  credentials_defaulting [("DB_HOST", "h")] rfl rfl rfl

/-- C7: rendering maps the reflected driver-level type name through the
total fixed mapping — an `INTEGER` column renders as `INT`, any type name
outside the mapping's enumeration renders as `VARCHAR(255)` (so rendering
never fails on an unknown type) — and a primary-key column additionally
gets the `PRIMARY KEY` suffix. -/
theorem format_column_details_type_mapping (c : Column) :
    (c.typeName = "INTEGER" →
      format_column_details c
        = c.name ++ " INT"
            ++ (if c.primary_key then " PRIMARY KEY" else ""))
    ∧ (c.typeName ∉ ["INTEGER", "BIGINT", "TEXT", "BOOLEAN", "DATE",
          "FLOAT", "DOUBLE", "SERIAL"] →
      format_column_details c
        = c.name ++ " VARCHAR(255)"
            ++ (if c.primary_key then " PRIMARY KEY" else "")) := by
  constructor
  · intro h
    unfold format_column_details
    rw [h]
    rw [show dictGet sql_type_mapping "INTEGER" "VARCHAR(255)" = "INT"
        from rfl]
    dsimp only
    rw [show c.name ++ " " ++ "INT" = c.name ++ " INT"
        from String.append_assoc c.name " " "INT"]
    by_cases hp : c.primary_key
    · rw [if_pos hp, if_pos hp]
    · rw [if_neg hp, if_neg hp, String.append_empty]
  · intro h
    simp only [List.mem_cons, not_or] at h
    obtain ⟨h1, h2, h3, h4, h5, h6, h7, h8, -⟩ := h
    have hget : dictGet sql_type_mapping c.typeName "VARCHAR(255)"
        = "VARCHAR(255)" := by
      simp only [sql_type_mapping, dictGet]
      rw [if_neg (fun hx => h1 hx.symm), if_neg (fun hx => h2 hx.symm),
        if_neg (fun hx => h3 hx.symm), if_neg (fun hx => h4 hx.symm),
        if_neg (fun hx => h5 hx.symm), if_neg (fun hx => h6 hx.symm),
        if_neg (fun hx => h7 hx.symm), if_neg (fun hx => h8 hx.symm)]
    unfold format_column_details
    rw [hget]
    dsimp only
    rw [show c.name ++ " " ++ "VARCHAR(255)" = c.name ++ " VARCHAR(255)"
        from String.append_assoc c.name " " "VARCHAR(255)"]
    by_cases hp : c.primary_key
    · rw [if_pos hp, if_pos hp]
    · rw [if_neg hp, if_neg hp, String.append_empty]

/-- Witness for C7: an `INTEGER` primary-key column and a column of the
unmapped type `JSONB`. -/
theorem format_column_details_type_mapping_witness :
    format_column_details ⟨"id", "INTEGER", true⟩ = "id INT PRIMARY KEY"
    ∧ format_column_details ⟨"payload", "JSONB", false⟩
      = "payload VARCHAR(255)" :=
  ⟨(format_column_details_type_mapping ⟨"id", "INTEGER", true⟩).1 rfl,
   (format_column_details_type_mapping ⟨"payload", "JSONB", false⟩).2
      (by decide)⟩

/-- C8: for every update statement and every view creation, success
commits and failure rolls back before the error is re-raised, and in both
outcomes the connection is closed exactly when `close_connection` is
true. -/
theorem update_create_view_tx_discipline (c : Conn) (q vn vq : String)
    (b : Bool) (e : DriverErr) :
    (update_records (some c) q (.ok ()) b
      = (.ok (), Action.executeStmt q :: Action.commitConn
          :: (if b then [Action.closeConn] else [])))
    ∧ (update_records (some c) q (.error e) b
      = (.error (.driver e), Action.executeStmt q :: Action.rollbackConn
          :: (if b then [Action.closeConn] else [])))
    ∧ (create_view (some c) vn vq (.ok ()) b
      = (.ok (), Action.executeStmt
            ("CREATE OR REPLACE VIEW " ++ vn ++ " AS " ++ vq)
          :: Action.commitConn :: (if b then [Action.closeConn] else [])))
    ∧ (create_view (some c) vn vq (.error e) b
      = (.error (.driver e), Action.executeStmt
            ("CREATE OR REPLACE VIEW " ++ vn ++ " AS " ++ vq)
          :: Action.rollbackConn
          :: (if b then [Action.closeConn] else [])))
    ∧ (∀ r : Except DriverErr Unit,
        (Action.closeConn ∈ (update_records (some c) q r b).2 ↔ b = true))
    ∧ (∀ r : Except DriverErr Unit,
        (Action.closeConn ∈ (create_view (some c) vn vq r b).2
          ↔ b = true)) := by
  refine ⟨rfl, rfl, rfl, rfl, ?_, ?_⟩ <;>
    intro r <;> cases r <;> cases b <;>
    simp [update_records, create_view]

/-- C9: a read query executed with `close_connection = true` closes the
connection afterwards whether the execution succeeded or failed: the trace
is the executed statement followed by the close, for every driver
outcome. -/
theorem query_database_always_closes (c : Conn) (q : String)
    (r : Except DriverErr DataFrame) :
    (query_database (some c) q r true).2
      = [Action.executeStmt q, Action.closeConn] := by
  cases r <;> rfl

/-- C10: calling `query_database`, `update_records` or `create_view` with
an absent (falsy) connection raises `ConnectionError` immediately: the
result is the connection error and the action trace is empty — no
statement, no commit or rollback, and no close, whatever the flags or the
would-be driver outcome. -/
theorem falsy_connection_rejected_immediately (q vn vq : String)
    (r1 : Except DriverErr DataFrame) (r2 r3 : Except DriverErr Unit)
    (b1 b2 b3 : Bool) :
    query_database none q r1 b1 = (.error (.connectionError none), [])
    ∧ update_records none q r2 b2 = (.error (.connectionError none), [])
    ∧ create_view none vn vq r3 b3
      = (.error (.connectionError none), []) :=
  ⟨rfl, rfl, rfl⟩

end Sonnixgres
